import Mathlib

/-!
# Verification of the gowiki matrix-multiplication route

Shallow embedding of `src/matrixRoute/matrixMultiply.go` (package
`matrixRoute`).  Go `float64` scalars are modelled as exact rationals `ℚ`
(the spec only claims equality up to floating-point addition order, so all
statements are about the exact arithmetic the code performs);
`[2]int` arrays are modelled by the structure `Dim2`; a Go runtime panic is
modelled by an `Option`-returning function producing `none`.
The nondeterministic arrival order of goroutine results on the channel is
modelled by an explicit `arrival : List ℚ` parameter constrained to be a
permutation of the multiset of published values.
-/

namespace MatrixRoute

/-- Go `[2]int`: a fixed two-element integer array, `v0 = a[0]`, `v1 = a[1]`. -/
structure Dim2 where
  v0 : Int
  v1 : Int
deriving DecidableEq, Repr

/-- Go `[][]float64`. -/
abbrev Mat : Type := List (List ℚ)

/-- Embedding of `dotProduct` (matrixMultiply.go:66-76).  The Go body:
`for k := 0; k < 100; k++ { for c := range mat1[i] { result += mat1[i][c] * mat2[c][j] } }`
then publishes `result` on the channel.  This function returns the published
scalar.  Out-of-range reads (`mat2[c][j]` with `c ≥ len(mat2)` or
`j ≥ len(mat2[c])`) would panic in Go; the claims about this function carry
in-range hypotheses, under which `getD` coincides with the Go access. -/
def dotProduct (mat1 mat2 : Mat) (mat1RowIdx mat2ColIdx : ℕ) : ℚ :=
  (List.range 100).foldl
    (fun result _k =>
      (List.range (mat1.getD mat1RowIdx []).length).foldl
        (fun result mat1ColIdx =>
          result +
            (mat1.getD mat1RowIdx []).getD mat1ColIdx 0 *
              (mat2.getD mat1ColIdx []).getD mat2ColIdx 0)
        result)
    0

/-- Column `j` of a matrix, as the spec speaks of "column j of B". -/
def colOf (mat : Mat) (j : ℕ) : List ℚ :=
  mat.map (fun row => row.getD j 0)

/-- The mathematical dot product of two vectors (the spec's "dot product of
row i of A and column j of B"). -/
def dotSpec (u v : List ℚ) : ℚ :=
  (List.zipWith (· * ·) u v).sum

/-- The list of output coordinates `(i, j)` for which `matrixMultiply`
spawns one goroutine each (matrixMultiply.go:50-54), in spawn order. -/
def cellTasks (mat1 mat2 : Mat) : List (ℕ × ℕ) :=
  (List.range mat1.length).flatMap
    (fun i => (List.range (mat2.getD 0 []).length).map (fun j => (i, j)))

/-- The scalars published onto the completion channel, one per spawned cell
task (each task sends exactly one value, `sumCh <- result`). -/
def publishedResults (mat1 mat2 : Mat) : List ℚ :=
  (cellTasks mat1 mat2).map (fun p => dotProduct mat1 mat2 p.1 p.2)

/-- Embedding of `matrixMultiply` (matrixMultiply.go:45-64): spawns the cell
tasks, then the nested drain loop performs exactly
`rowsOfMat1 * colsOfMat2` channel receives, accumulating `sum += <-sumCh`.
`arrival` is the sequence of values in the order they are received; the
drain consumes its first `rowsOfMat1 * colsOfMat2` elements. -/
def matrixMultiply (mat1 mat2 : Mat) (arrival : List ℚ) : ℚ :=
  (arrival.take (mat1.length * (mat2.getD 0 []).length)).foldl (· + ·) 0

/-- Embedding of `createMat` (matrixMultiply.go:32-43).  `rng k` is the
value of the k-th call to `rand.Float64()` during this generation (the two
nested loops consume the stream in row-major order); each stored entry is
that value times 1e3.  Go's `make` would panic on a negative row or column
count; the claims about this function carry positivity hypotheses, under
which `Int.toNat` agrees with the Go `int`. -/
def createMat (matrixSize : Dim2) (rng : Nat → ℚ) : Mat :=
  (List.range matrixSize.v0.toNat).map (fun rowIdx =>
    (List.range matrixSize.v1.toNat).map (fun colIdx =>
      rng (rowIdx * matrixSize.v1.toNat + colIdx) * 1000))

/-- Embedding of `createMatAndMultiply` (matrixMultiply.go:78-84): generates
the two matrices from the shared pseudorandom stream (mat2 consumes the
values after mat1's `rows*cols` draws), allocates the buffered channel, and
multiplies. -/
def createMatAndMultiply (matAsize matBsize : Dim2) (rng : Nat → ℚ)
    (arrival : List ℚ) : ℚ :=
  let mat1 := createMat matAsize rng
  let mat2 := createMat matBsize
    (fun k => rng (matAsize.v0.toNat * matAsize.v1.toNat + k))
  matrixMultiply mat1 mat2 arrival

/-- Embedding of `canMultiply` (matrixMultiply.go:86-91). -/
def canMultiply (matAsize matBsize : Dim2) : Bool × String :=
  if matAsize.v1 = matBsize.v0 then (true, "")
  else (false,
    "matrix with size " ++ toString matAsize.v0 ++ " * " ++
      toString matAsize.v1 ++ " cannot be multiplied with matrix of size " ++
      toString matBsize.v0 ++ " * " ++ toString matBsize.v1)

/-- Embedding of `strconv.Atoi`: optional sign, at least one digit, all
digits, and the value must fit a 64-bit `int` (Go returns a range error
otherwise, which the caller treats the same as a syntax error). -/
def atoi (s : String) : Option Int :=
  let signDigits : Int × List Char :=
    match s.data with
    | '+' :: rest => (1, rest)
    | '-' :: rest => (-1, rest)
    | l => (1, l)
  if signDigits.2.isEmpty then none
  else if signDigits.2.all (fun c => c.isDigit) then
    let n : Nat := signDigits.2.foldl (fun n c => 10 * n + (c.toNat - 48)) 0
    let v : Int := signDigits.1 * n
    if -9223372036854775808 ≤ v ∧ v ≤ 9223372036854775807 then some v
    else none
  else none

/-- Splitter for `strings.Fields`: maximal runs of non-whitespace
characters; `cur` is the (reversed) run being accumulated. -/
def fieldsAux : List Char → List Char → List String
  | [], cur => if cur.isEmpty then [] else [String.mk cur.reverse]
  | c :: rest, cur =>
    if c.isWhitespace then
      if cur.isEmpty then fieldsAux rest []
      else String.mk cur.reverse :: fieldsAux rest []
    else fieldsAux rest (c :: cur)

/-- Embedding of `strings.Fields(strings.Replace(s, ",", " ", -1))`
(matrixMultiply.go:124): commas become spaces, then the string is split
into whitespace-separated tokens (never producing empty tokens). -/
def goFields (s : String) : List String :=
  fieldsAux (s.data.map (fun c => if c = ',' then ' ' else c)) []

/-- The token loop of `processRequest` (matrixMultiply.go:128-134): each
token goes through `strconv.Atoi`; a parse failure returns the message
`"<token> is an invalid input"` together with the dimension filled so far;
a successful parse is stored at `matSizes[matID][idx]` — an out-of-bounds
write (Go runtime panic, modelled `none`) when `idx ≥ 2`, since the loop is
not bounded to the two array cells. -/
def fillDim : List String → Nat → Dim2 → Option (Except (Dim2 × String) Dim2)
  | [], _, d => some (Except.ok d)
  | stringValue :: rest, idx, d =>
    match atoi stringValue with
    | none => some (Except.error (d, stringValue ++ " is an invalid input"))
    | some intValue =>
      if idx = 0 then fillDim rest (idx + 1) { d with v0 := intValue }
      else if idx = 1 then fillDim rest (idx + 1) { d with v1 := intValue }
      else none

/-- One iteration of the field loop of `processRequest`
(matrixMultiply.go:120-138).  `field` is `request.Form[matName]`
(`none` when the key is absent).  The source reads `slice[0]` BEFORE
consulting `found`, so an absent field (nil slice) is an index-out-of-range
panic, modelled `none`.  A present field with an empty string, or with
fewer than two tokens, returns the corresponding arity message. -/
def processOne (field : Option (List String)) :
    Option (Except (Dim2 × String) Dim2) :=
  let slice := field.getD []
  match slice with
  | [] => none
  | userInputString :: _ =>
    if field.isSome ∧ userInputString.length > 0 then
      let sizeValues := goFields userInputString
      if sizeValues.length < 2 then
        some (Except.error (⟨0, 0⟩, "2 numbers needed, only 1 received"))
      else fillDim sizeValues 0 ⟨0, 0⟩
    else some (Except.error (⟨0, 0⟩, "2 numbers needed, 0 received"))

/-- Embedding of `processRequest` (matrixMultiply.go:118-140).  Arguments
are the values of the form fields "matASize" and "matBSize".  `none` models
a Go runtime panic; otherwise the triple `([2][2]int, errorMessage, ok)` is
returned exactly as in the source (an error return carries the partially
filled `matSizes`). -/
def processRequest (matASize matBSize : Option (List String)) :
    Option ((Dim2 × Dim2) × String × Bool) :=
  match processOne matASize with
  | none => none
  | some (Except.error (dA, msg)) => some ((dA, ⟨0, 0⟩), msg, false)
  | some (Except.ok dA) =>
    match processOne matBSize with
    | none => none
    | some (Except.error (dB, msg)) => some ((dA, dB), msg, false)
    | some (Except.ok dB) => some ((dA, dB), "", true)

/-- Observables of one `MatrixHandler` dispatch (matrixMultiply.go:94-116)
on a non-empty form: what is rendered (`none` = a panic escaped
`processRequest`; `Sum.inl` = the error paragraph; `Sum.inr` = the result
value), and how much concurrent work was started. -/
structure HandlerTrace where
  outcome : Option (String ⊕ ℚ)
  matricesCreated : Nat
  tasksSpawned : Nat
  queueAllocated : Bool

/-- The dispatch logic of `MatrixHandler` after `ParseForm` succeeded on a
non-empty form: `processRequest`, then `canMultiply`, then — only on the
success path — matrix generation, channel allocation and the task fan-out
of `createMatAndMultiply`.  The instrumentation fields record exactly the
work that path performs. -/
def handleFormTrace (matASize matBSize : Option (List String))
    (rng : Nat → ℚ) (arrival : List ℚ) : HandlerTrace :=
  match processRequest matASize matBSize with
  | none => ⟨none, 0, 0, false⟩
  | some (matrixSizes, errorMessage, ok) =>
    if ok then
      match canMultiply matrixSizes.1 matrixSizes.2 with
      | (true, _) =>
        ⟨some (Sum.inr (createMatAndMultiply matrixSizes.1 matrixSizes.2
            rng arrival)),
          2,
          (cellTasks (createMat matrixSizes.1 rng)
            (createMat matrixSizes.2
              (fun k => rng (matrixSizes.1.v0.toNat * matrixSizes.1.v1.toNat
                + k)))).length,
          true⟩
      | (false, emsg) => ⟨some (Sum.inl emsg), 0, 0, false⟩
    else ⟨some (Sum.inl errorMessage), 0, 0, false⟩

end MatrixRoute

namespace MatrixRoute

/-- `foldl` of repeated addition collects the mapped sum. -/
theorem foldl_add_map_sum (f : ℕ → ℚ) (l : List ℕ) (a : ℚ) :
    l.foldl (fun acc c => acc + f c) a = a + (l.map f).sum := by
  induction l generalizing a with
  | nil => simp
  | cons x xs ih => simp [ih, add_assoc]

/-- `foldl` that adds a constant once per element multiplies it by the length. -/
theorem foldl_add_const (S : ℚ) (l : List ℕ) (a : ℚ) :
    l.foldl (fun acc _ => acc + S) a = a + l.length * S := by
  induction l generalizing a with
  | nil => simp
  | cons x xs ih =>
    simp only [List.foldl_cons, ih, List.length_cons]
    push_cast
    ring

/-- The index-sum over a row equals the zipWith dot product with the column,
when the row length matches the number of rows of the second matrix. -/
theorem rangeSum_eq_dotSpec (u : List ℚ) (v : Mat) (j : ℕ)
    (h : u.length = v.length) :
    ((List.range u.length).map
      (fun c => u.getD c 0 * (v.getD c []).getD j 0)).sum
      = dotSpec u (colOf v j) := by
  induction u generalizing v with
  | nil => simp [dotSpec]
  | cons x xs ih =>
    cases v with
    | nil => simp at h
    | cons w ws =>
      simp only [List.length_cons, List.range_succ_eq_map, List.map_cons,
        List.map_map, List.sum_cons, dotSpec, colOf, List.zipWith_cons_cons]
      have hx : xs.length = ws.length := by
        simpa using h
      have := ih ws hx
      simp only [dotSpec, colOf] at this
      simp only [List.getD_cons_zero, List.getD_cons_succ, Function.comp]
      rw [← this]
      rfl

/-- Sum of a constant Nat over a range. -/
theorem sum_map_const_nat (n p : ℕ) :
    (List.map (fun _ : ℕ => p) (List.range n)).sum = n * p := by
  induction n with
  | zero => simp
  | succ k ih =>
    rw [List.range_succ, List.map_append, List.sum_append, ih]
    simp [Nat.succ_mul]

/-- Sum of a constant rational over a range. -/
theorem sum_map_const_rat (n : ℕ) (S : ℚ) :
    (List.map (fun _ : ℕ => S) (List.range n)).sum = n * S := by
  induction n with
  | zero => simp
  | succ k ih =>
    rw [List.range_succ, List.map_append, List.sum_append, ih]
    simp
    try ring

/-- Number of spawned cell tasks. -/
theorem cellTasks_length (mat1 mat2 : Mat) :
    (cellTasks mat1 mat2).length = mat1.length * (mat2.getD 0 []).length := by
  unfold cellTasks
  simp [Function.comp_def, sum_map_const_nat]

/-- Membership in the task list characterises the output coordinates. -/
theorem mem_cellTasks (mat1 mat2 : Mat) (p : ℕ × ℕ) :
    p ∈ cellTasks mat1 mat2 ↔
      p.1 < mat1.length ∧ p.2 < (mat2.getD 0 []).length := by
  cases p with
  | mk i j => simp [cellTasks]

/-- One published scalar per spawned task. -/
theorem publishedResults_length (mat1 mat2 : Mat) :
    (publishedResults mat1 mat2).length
      = mat1.length * (mat2.getD 0 []).length := by
  simp [publishedResults, cellTasks_length]

/-- Core evaluation lemma for one cell task: the published scalar is 100
times the row-by-column dot product. -/
theorem dotProduct_eval (mat1 mat2 : Mat) (i j : ℕ)
    (hrect : (mat1.getD i []).length = mat2.length) :
    dotProduct mat1 mat2 i j = 100 * dotSpec (mat1.getD i []) (colOf mat2 j) := by
  unfold dotProduct
  simp only [foldl_add_map_sum, zero_add]
  simp only [rangeSum_eq_dotSpec _ _ _ hrect]
  rw [sum_map_const_rat]
  norm_num

/-- C1: For every pair of rectangular matrices A and B with
`A.cols == B.rows`, and every output coordinate `(i, j)` with
`0 ≤ i < rows_A` and `0 ≤ j < cols_B`, the scalar published by the cell task
for `(i, j)` equals 100 times the dot product of row `i` of A and column `j`
of B — the accumulation is repeated 100 times and never divided back down. -/
theorem cellTask_publishes_100_times_dot (mat1 mat2 : Mat) (i j : ℕ)
    (hi : i < mat1.length) (hj : j < (mat2.getD 0 []).length)
    (hrect : ∀ row ∈ mat1, row.length = mat2.length) :
    dotProduct mat1 mat2 i j
      = 100 * dotSpec (mat1.getD i []) (colOf mat2 j) := by
  have hmem : mat1.getD i [] ∈ mat1 := by
    rw [List.getD_eq_getElem mat1 [] hi]
    exact List.getElem_mem hi
  exact dotProduct_eval mat1 mat2 i j (hrect _ hmem)

/-- Witness for C1 on the concrete input A = [[2, 5]], B = [[3], [4]]. -/
theorem cellTask_publishes_100_times_dot_witness :
    (0 < 1 ∧ (∀ row ∈ [[(2:ℚ), 5]], row.length = 2)) ∧
      dotProduct [[(2:ℚ), 5]] [[3], [4]] 0 0
        = 100 * dotSpec [(2:ℚ), 5] (colOf [[(3:ℚ)], [4]] 0) :=
  ⟨⟨by decide, by decide⟩,
    cellTask_publishes_100_times_dot [[(2:ℚ), 5]] [[3], [4]] 0 0
      (by decide) (by decide) (by decide)⟩

/-- C2: the value returned by the multiplier is the sum of all
`rows_A × cols_B` per-cell scalars drained from the completion queue, i.e.
100 × Σ over all cells of the row-by-column dot products (exactly, since
scalars are modelled as exact rationals; addition order is immaterial). -/
theorem matrixMultiply_total (mat1 mat2 : Mat) (arrival : List ℚ)
    (hrect : ∀ row ∈ mat1, row.length = mat2.length)
    (hperm : arrival.Perm (publishedResults mat1 mat2)) :
    matrixMultiply mat1 mat2 arrival
      = 100 * ((cellTasks mat1 mat2).map
          (fun p => dotSpec (mat1.getD p.1 []) (colOf mat2 p.2))).sum := by
  have hlenA : arrival.length = mat1.length * (mat2.getD 0 []).length := by
    rw [hperm.length_eq, publishedResults_length]
  unfold matrixMultiply
  rw [← hlenA, List.take_length, ← List.sum_eq_foldl, hperm.sum_eq]
  unfold publishedResults
  have hmap : (cellTasks mat1 mat2).map (fun p => dotProduct mat1 mat2 p.1 p.2)
      = (cellTasks mat1 mat2).map
          (fun p => 100 * dotSpec (mat1.getD p.1 []) (colOf mat2 p.2)) := by
    apply List.map_congr_left
    intro p hp
    have hi : p.1 < mat1.length := ((mem_cellTasks mat1 mat2 p).1 hp).1
    have hmem : mat1.getD p.1 [] ∈ mat1 := by
      rw [List.getD_eq_getElem mat1 [] hi]
      exact List.getElem_mem hi
    exact dotProduct_eval mat1 mat2 p.1 p.2 (hrect _ hmem)
  rw [hmap, List.sum_map_mul_left]

/-- Witness for C2 on A = [[1, 2]], B = [[3], [4]] with the results arriving
in reversed spawn order: the total is 100 × (1·3 + 2·4) = 1100. -/
theorem matrixMultiply_total_witness :
    matrixMultiply [[(1:ℚ), 2]] [[3], [4]]
        (publishedResults [[(1:ℚ), 2]] [[3], [4]]).reverse
      = 100 * ((cellTasks [[(1:ℚ), 2]] [[3], [4]]).map
          (fun p => dotSpec ([[(1:ℚ), 2]].getD p.1 [])
            (colOf [[(3:ℚ)], [4]] p.2))).sum :=
  matrixMultiply_total [[(1:ℚ), 2]] [[3], [4]] _
    (by decide) (List.reverse_perm _)

/-- C3: for matrices with m rows (A) and p columns (B), exactly m × p cell
tasks are spawned, exactly m × p scalars are published onto the completion
channel, and the aggregator drains exactly m × p of the arrived values. -/
theorem spawn_publish_drain_counts (mat1 mat2 : Mat) (arrival : List ℚ)
    (hperm : arrival.Perm (publishedResults mat1 mat2)) :
    (cellTasks mat1 mat2).length = mat1.length * (mat2.getD 0 []).length ∧
    (publishedResults mat1 mat2).length
      = mat1.length * (mat2.getD 0 []).length ∧
    (arrival.take (mat1.length * (mat2.getD 0 []).length)).length
      = mat1.length * (mat2.getD 0 []).length := by
  refine ⟨cellTasks_length mat1 mat2, publishedResults_length mat1 mat2, ?_⟩
  have hlenA : arrival.length = mat1.length * (mat2.getD 0 []).length := by
    rw [hperm.length_eq, publishedResults_length]
  rw [List.length_take, hlenA, min_self]

/-- Witness for C3 with the 2×1 by 1×2 shape (4 tasks), results arriving
reversed. -/
theorem spawn_publish_drain_counts_witness :
    (cellTasks [[(1:ℚ)], [2]] [[3, 4]]).length = 2 * 2 ∧
    (publishedResults [[(1:ℚ)], [2]] [[3, 4]]).length = 2 * 2 ∧
    ((publishedResults [[(1:ℚ)], [2]] [[3, 4]]).reverse.take (2 * 2)).length
      = 2 * 2 :=
  spawn_publish_drain_counts [[(1:ℚ)], [2]] [[3, 4]] _ (List.reverse_perm _)

/-- C4: `canMultiply` succeeds exactly when `dimA.cols == dimB.rows`, and on
failure the message states both shapes in the exact format of the source's
`fmt.Sprintf`. -/
theorem canMultiply_iff_and_message (a b : Dim2) :
    ((canMultiply a b).1 = true ↔ a.v1 = b.v0) ∧
      ((canMultiply a b).1 = false →
        (canMultiply a b).2
          = "matrix with size " ++ toString a.v0 ++ " * " ++ toString a.v1 ++
              " cannot be multiplied with matrix of size " ++ toString b.v0 ++
              " * " ++ toString b.v1) := by
  unfold canMultiply
  by_cases h : a.v1 = b.v0 <;> simp [h]

/-- Witness for C4 at the spec's own example (2×3 against 4×2). -/
theorem canMultiply_iff_and_message_witness :
    (canMultiply ⟨2, 3⟩ ⟨4, 2⟩).1 = false ∧
      (canMultiply ⟨2, 3⟩ ⟨4, 2⟩).2
        = "matrix with size 2 * 3 cannot be multiplied with matrix of size 4 * 2" := by
  refine ⟨by decide, ?_⟩
  have h := (canMultiply_iff_and_message ⟨2, 3⟩ ⟨4, 2⟩).2 (by decide)
  rw [h]
  decide

/-- C5 counterexample: the validator happily accepts "0 0" — a dimension
with zero rows and zero cols is returned with ok = true, so dimensions
returned successfully are NOT guaranteed strictly positive. -/
theorem processRequest_accepts_nonpositive :
    processRequest (some ["0 0"]) (some ["1 1"])
      = some ((⟨0, 0⟩, ⟨1, 1⟩), "", true) ∧ ¬(0 < (0 : Int)) :=
  ⟨by decide, by decide⟩

/-- C5 amended: the validator checks only field presence, token arity and
integer syntax; whatever integers the first two tokens denote — zero and
negative values included — are returned unchanged with ok = true, so no
positivity invariant is established for the matrix generator. -/
theorem processRequest_returns_any_integers
    (sA sB tA0 tA1 tB0 tB1 : String) (a0 a1 b0 b1 : Int)
    (hA : goFields sA = [tA0, tA1]) (hB : goFields sB = [tB0, tB1])
    (hAlen : sA.length > 0) (hBlen : sB.length > 0)
    (h0 : atoi tA0 = some a0) (h1 : atoi tA1 = some a1)
    (h2 : atoi tB0 = some b0) (h3 : atoi tB1 = some b1) :
    processRequest (some [sA]) (some [sB])
      = some ((⟨a0, a1⟩, ⟨b0, b1⟩), "", true) := by
  unfold processRequest processOne
  simp [hA, hB, hAlen, hBlen, fillDim, h0, h1, h2, h3]

/-- Witness for C5's amended statement: zero and negative dimensions pass. -/
theorem processRequest_returns_any_integers_witness :
    (goFields "0 0" = ["0", "0"] ∧ atoi "-3" = some (-3)) ∧
      processRequest (some ["0 0"]) (some ["-3 5"])
        = some ((⟨0, 0⟩, ⟨-3, 5⟩), "", true) :=
  ⟨⟨by decide, by decide⟩,
    processRequest_returns_any_integers "0 0" "-3 5" "0" "0" "-3" "5" 0 0 (-3) 5
      (by decide) (by decide) (by decide) (by decide)
      (by decide) (by decide) (by decide) (by decide)⟩

/-- C6: with the matASize key absent, `processRequest` evaluates `slice[0]`
on a nil slice BEFORE consulting `found` — an index-out-of-range runtime
panic (modelled `none`), not an ArityError result.  The present-but-empty
and single-token cases do return the arity messages the claim describes. -/
theorem processRequest_absent_field_panics :
    processRequest none (some ["2 2"]) = none ∧
      processRequest (some [""]) (some ["2 2"])
        = some ((⟨0, 0⟩, ⟨0, 0⟩), "2 numbers needed, 0 received", false) ∧
      processRequest (some ["5"]) (some ["2 2"])
        = some ((⟨0, 0⟩, ⟨0, 0⟩), "2 numbers needed, only 1 received", false) :=
  ⟨by decide, by decide, by decide⟩

/-- C10: an input whose size string yields three tokens that all parse as
integers drives the token loop to index 2 of the two-element array
`matSizes[matID]`: the write is out of bounds (a Go runtime panic, modelled
`none`), so the validator returns neither a success nor an error result. -/
theorem three_int_tokens_out_of_bounds :
    processRequest (some ["1 2 3"]) (some ["1 1"]) = none := by decide

/-- C7 counterexample: matASize = "1 2 3 x" splits into at least 2 tokens
and contains the invalid token "x", yet the validator panics on the
out-of-bounds write at index 2 (the first three tokens all parse) before
ever examining "x" — no ParseError result is produced. -/
theorem parse_error_unreached_counterexample :
    atoi "x" = none ∧
      processRequest (some ["1 2 3 x"]) (some ["1 1"]) = none :=
  ⟨by decide, by decide⟩

/-- C7 amended: for a field string of at least 2 tokens whose FIRST
non-integer token sits at index ≤ 2, validation fails with the ParseError
message naming that token (when the first three tokens all parse and a
later one is invalid, the out-of-bounds write of C10 panics first). -/
theorem parse_error_names_first_offender
    (s : String) (matBSize : Option (List String)) (toks : List String)
    (k : Nat) (hs : s.length > 0) (htoks : goFields s = toks)
    (hlen : 2 ≤ toks.length) (hk3 : k < 3) (hk : k < toks.length)
    (hbefore : ∀ i, i < k → (atoi (toks.getD i "")).isSome = true)
    (hfail : atoi (toks.getD k "") = none) :
    ∃ dims, processRequest (some [s]) matBSize
        = some (dims, toks.getD k "" ++ " is an invalid input", false) := by
  have h2 : ¬ (toks.length < 2) := by omega
  have hpo : processOne (some [s]) = fillDim toks 0 ⟨0, 0⟩ := by
    unfold processOne
    simp [htoks, hs, h2]
  rcases toks with _ | ⟨t0, toks1⟩
  · simp at hlen
  rcases toks1 with _ | ⟨t1, rest⟩
  · simp at hlen
  interval_cases k
  · simp only [List.getD_cons_zero] at hfail
    refine ⟨(⟨0, 0⟩, ⟨0, 0⟩), ?_⟩
    unfold processRequest
    rw [hpo]
    simp [fillDim, hfail]
  · have h0 := hbefore 0 (by omega)
    simp only [List.getD_cons_zero] at h0
    obtain ⟨v0, hv0⟩ := Option.isSome_iff_exists.mp h0
    simp only [List.getD_cons_succ, List.getD_cons_zero] at hfail
    refine ⟨(⟨v0, 0⟩, ⟨0, 0⟩), ?_⟩
    unfold processRequest
    rw [hpo]
    simp [fillDim, hv0, hfail]
  · have h0 := hbefore 0 (by omega)
    have h1 := hbefore 1 (by omega)
    simp only [List.getD_cons_zero] at h0
    simp only [List.getD_cons_succ, List.getD_cons_zero] at h1
    obtain ⟨v0, hv0⟩ := Option.isSome_iff_exists.mp h0
    obtain ⟨v1, hv1⟩ := Option.isSome_iff_exists.mp h1
    rcases rest with _ | ⟨t2, rest2⟩
    · simp at hk
    simp only [List.getD_cons_succ, List.getD_cons_zero] at hfail
    refine ⟨(⟨v0, v1⟩, ⟨0, 0⟩), ?_⟩
    unfold processRequest
    rw [hpo]
    simp [fillDim, hv0, hv1, hfail]

/-- Witness for C7's amended statement: "1 x" fails with the ParseError
naming "x". -/
theorem parse_error_names_first_offender_witness :
    ∃ dims, processRequest (some ["1 x"]) (some ["1 1"])
        = some (dims, "x is an invalid input", false) := by
  have h := parse_error_names_first_offender "1 x" (some ["1 1"])
    ["1", "x"] 1 (by decide) (by decide) (by decide) (by decide)
    (by decide) (by decide) (by decide)
  simpa using h

/-- C8: for strictly positive dimensions the generator returns exactly
`rows` outer rows, every inner row of exactly `cols` entries, and — when
the pseudorandom source yields values in [0, 1) — every entry lies in
[0, 1000). -/
theorem createMat_shape_and_range (d : Dim2) (rng : Nat → ℚ)
    (hrows : 0 < d.v0) (hcols : 0 < d.v1)
    (hrng : ∀ k, 0 ≤ rng k ∧ rng k < 1) :
    (createMat d rng).length = d.v0.toNat ∧
      (∀ row ∈ createMat d rng, row.length = d.v1.toNat) ∧
      (∀ row ∈ createMat d rng, ∀ x ∈ row, 0 ≤ x ∧ x < 1000) := by
  refine ⟨by simp [createMat], ?_, ?_⟩
  · intro row hrow
    simp only [createMat, List.mem_map, List.mem_range] at hrow
    obtain ⟨i, _, rfl⟩ := hrow
    simp
  · intro row hrow x hx
    simp only [createMat, List.mem_map, List.mem_range] at hrow
    obtain ⟨i, _, rfl⟩ := hrow
    simp only [List.mem_map, List.mem_range] at hx
    obtain ⟨j, _, rfl⟩ := hx
    refine ⟨mul_nonneg (hrng _).1 (by norm_num), ?_⟩
    have h := mul_lt_mul_of_pos_right (hrng (i * d.v1.toNat + j)).2
      (show (0:ℚ) < 1000 by norm_num)
    simpa using h

/-- Witness for C8 with a 2×3 shape and the constant-zero source. -/
theorem createMat_shape_and_range_witness :
    (createMat ⟨2, 3⟩ (fun _ => 0)).length = 2 ∧
      ∀ row ∈ createMat ⟨2, 3⟩ (fun _ => (0:ℚ)), row.length = 3 :=
  ⟨(createMat_shape_and_range ⟨2, 3⟩ (fun _ => 0) (by decide) (by decide)
      (fun k => ⟨le_refl 0, zero_lt_one⟩)).1,
    (createMat_shape_and_range ⟨2, 3⟩ (fun _ => 0) (by decide) (by decide)
      (fun k => ⟨le_refl 0, zero_lt_one⟩)).2.1⟩

/-- C9: whenever validation fails with an error result — arity or parse
error from `processRequest`, or a dimension mismatch from `canMultiply` —
the handler renders an error paragraph and starts no computation: no matrix
is created, no cell task is spawned, and no completion queue is
allocated. -/
theorem handler_error_means_no_computation
    (matASize matBSize : Option (List String)) (rng : Nat → ℚ)
    (arrival : List ℚ) (dims : Dim2 × Dim2) (msg : String)
    (h : processRequest matASize matBSize = some (dims, msg, false) ∨
      (processRequest matASize matBSize = some (dims, msg, true) ∧
        (canMultiply dims.1 dims.2).1 = false)) :
    ∃ emsg, handleFormTrace matASize matBSize rng arrival
        = ⟨some (Sum.inl emsg), 0, 0, false⟩ := by
  unfold handleFormTrace
  rcases h with h | ⟨h, hcm⟩
  · rw [h]
    exact ⟨msg, rfl⟩
  · rw [h]
    rcases hcan : canMultiply dims.1 dims.2 with ⟨b, emsg⟩
    cases b with
    | true =>
      rw [hcan] at hcm
      simp at hcm
    | false =>
      refine ⟨emsg, ?_⟩
      simp [hcan]

/-- Witness for C9 on the spec's own mismatch scenario (2×3 against 4×2):
the trace shows the error paragraph and zero started work. -/
theorem handler_error_means_no_computation_witness :
    ∃ emsg, handleFormTrace (some ["2 3"]) (some ["4 2"]) (fun _ => 0) []
        = ⟨some (Sum.inl emsg), 0, 0, false⟩ :=
  handler_error_means_no_computation (some ["2 3"]) (some ["4 2"])
    (fun _ => 0) [] (⟨2, 3⟩, ⟨4, 2⟩) ""
    (Or.inr ⟨by decide, by decide⟩)

end MatrixRoute
